import Mathlib

/-!
# Verification of the NEXUS GROUP RBAC backend

Shallow embedding of the authorization core of the `nexus-backend`
application (role registry, permission table, decision functions, data
scoping, and the expense / stock / document / user workflows) together
with proofs of the specification's claims about them.

Conventions of the embedding:
* Python strings stay `String`; Python lists stay `List`.
* SQLAlchemy rows become Lean structures; the database session becomes an
  explicit state record (lists of rows), and each endpoint becomes a pure
  function `state → inputs → Except ApiError state` where `Except.error`
  models an `HTTPException` raised before any mutation is committed.
* Monetary amounts and quantities (Python floats) are modelled as `Int`;
  the claims under study only involve exact additions, subtractions and
  comparisons, which floats on these code paths compute the same way.
* FastAPI dependency gates (`require_admin`, `require_permission`) are
  inlined as the first guard of the corresponding endpoint function.
-/

namespace Nexus

/-! ## Role vocabulary — `app/core/security.py`, class `RoleEnum` -/

namespace RoleEnum

def ADMIN_GENERAL : String := "admin_general"

def ADMIN_CHANTIER : String := "admin_chantier"

def COMPTABLE : String := "comptable"

def CHEF_CHANTIER : String := "chef_chantier"

def MAGASINIER : String := "magasinier"

def OUVRIER : String := "ouvrier"

def CLIENT : String := "client"

def DIRECTION : String := "direction"

def all_roles : List String :=
  [ADMIN_GENERAL, ADMIN_CHANTIER, COMPTABLE,
   CHEF_CHANTIER, MAGASINIER, OUVRIER,
   CLIENT, DIRECTION]

end RoleEnum

/-! ## Role metadata — `app/core/security.py`, `ROLE_INFO` -/

structure RoleInfo where
  name : String
  description : String
  color : String
  level : Nat
  deriving Repr, DecidableEq

def ROLE_INFO : List (String × RoleInfo) :=
  [(RoleEnum.ADMIN_GENERAL, ⟨"Administrateur Général", "Accès total au système", "#8B0000", 10⟩),
   (RoleEnum.ADMIN_CHANTIER, ⟨"Administrateur de Chantier", "Rôle intermédiaire pour déléguer", "#1a1a2e", 8⟩),
   (RoleEnum.COMPTABLE, ⟨"Comptable / Financier", "Accès financier uniquement", "#cc6600", 6⟩),
   (RoleEnum.CHEF_CHANTIER, ⟨"Chef de Chantier", "Accès opérationnel terrain", "#006400", 5⟩),
   (RoleEnum.MAGASINIER, ⟨"Magasinier", "Gestionnaire de stock", "#666666", 4⟩),
   (RoleEnum.OUVRIER, ⟨"Ouvrier / Technicien", "Accès très limité", "#336699", 2⟩),
   (RoleEnum.CLIENT, ⟨"Client", "Accès consultatif", "#4a90a4", 1⟩),
   (RoleEnum.DIRECTION, ⟨"Direction / Associé", "Supervision lecture seule", "#4a0080", 9⟩)]

/-- `get_role_info` — `ROLE_INFO.get(role, {..., "level": 0})`. -/
def get_role_info (role : String) : RoleInfo :=
  (ROLE_INFO.lookup role).getD ⟨role, "Rôle inconnu", "#000000", 0⟩

/-- `get_role_level` — `get_role_info(role).get("level", 0)`. -/
def get_role_level (role : String) : Nat :=
  (get_role_info role).level

/-! ## Request identity — the dict produced by `get_current_user` -/

structure UserCtx where
  user_id : Int
  role : String
  chantiers_assignes : List Int
  chantier_id : Option Int := none
  deriving Repr, DecidableEq

/-- `has_chantier_access` — `app/core/security.py` lines 388–407. -/
def has_chantier_access (user : UserCtx) (chantier_id : Int) : Bool :=
  if [RoleEnum.ADMIN_GENERAL, RoleEnum.DIRECTION,
      RoleEnum.COMPTABLE, RoleEnum.MAGASINIER].contains user.role then
    true
  else
    user.chantiers_assignes.contains chantier_id

/-! ## Permission table — `app/core/permissions.py`, `ROLE_PERMISSIONS` -/

def ROLE_PERMISSIONS : List (String × List String) :=
  [(RoleEnum.ADMIN_GENERAL,
    ["all"]),
   (RoleEnum.ADMIN_CHANTIER,
    ["view_chantiers", "view_chantiers_assignes", "edit_chantier",
     "view_taches", "create_tache", "edit_tache", "delete_tache", "assign_tache",
     "view_journal", "create_journal", "edit_journal",
     "view_documents", "upload_document", "delete_document", "download_document",
     "validate_document_client",
     "view_employes",
     "view_presences", "manage_presences",
     "view_budget_chantier",
     "view_depenses",
     "view_commandes", "validate_commande_chantier",
     "view_stock", "view_stock_chantier",
     "view_equipements", "view_equipements_chantier",
     "validate_modification",
     "view_rapports", "view_rapports_chantier", "view_rapports_techniques",
     "view_notifications"]),
   (RoleEnum.COMPTABLE,
    ["view_chantiers", "view_all_chantiers",
     "view_documents", "view_documents_techniques", "download_document",
     "view_budget", "view_budget_global", "view_budget_chantier",
     "view_previsions",
     "export_budget",
     "view_depenses", "view_all_depenses", "create_depense",
     "view_paiements", "create_paiement", "manage_paiements",
     "view_factures", "create_facture", "manage_factures",
     "view_avances", "manage_avances",
     "view_employes", "view_all_employes", "view_salaires",
     "export_rapports", "export_finances",
     "view_rapports", "view_rapports_financiers",
     "view_notifications"]),
   (RoleEnum.CHEF_CHANTIER,
    ["view_chantiers", "view_chantiers_assignes",
     "view_taches", "create_tache", "edit_tache", "assign_tache",
     "update_avancement",
     "view_journal", "create_journal", "edit_journal",
     "view_documents", "upload_document", "download_document",
     "view_employes",
     "view_presences", "create_presence", "manage_presences",
     "view_stock", "view_stock_chantier",
     "view_equipements", "view_equipements_chantier", "manage_equipements",
     "view_commandes", "create_commande", "create_demande_equipement",
     "propose_modification",
     "view_rapports", "view_rapports_chantier",
     "view_notifications"]),
   (RoleEnum.MAGASINIER,
    ["view_chantiers", "view_all_chantiers",
     "view_stock", "view_all_stock",
     "create_stock", "edit_stock", "delete_stock",
     "mouvement_stock",
     "receive_materiel",
     "transfer_stock",
     "view_historique_stock",
     "view_equipements", "manage_equipements",
     "view_commandes",
     "view_documents", "upload_document", "download_document",
     "view_notifications"]),
   (RoleEnum.OUVRIER,
    ["view_taches_assignees",
     "update_avancement",
     "view_presence_personnelle",
     "pointer",
     "view_notifications"]),
   (RoleEnum.CLIENT,
    ["view_chantier_propre",
     "view_avancement",
     "view_photos_validees",
     "view_videos_validees",
     "add_commentaire",
     "view_historique_etapes",
     "view_documents_valides",
     "download_document",
     "view_notifications"]),
   (RoleEnum.DIRECTION,
    ["view_chantiers", "view_all_chantiers",
     "view_taches",
     "view_journal",
     "view_documents", "download_document",
     "view_employes", "view_all_employes", "view_salaires",
     "view_presences", "view_all_presences",
     "view_budget", "view_budget_global", "view_budget_chantier",
     "view_previsions",
     "view_depenses", "view_all_depenses",
     "view_paiements",
     "view_factures",
     "view_stock", "view_all_stock", "view_historique_stock",
     "view_commandes",
     "view_rapports", "view_rapports_financiers",
     "view_rapports_techniques", "view_rapports_rh",
     "view_dashboard_global",
     "view_audit",
     "view_notifications"])]

/-- `ROLE_PERMISSIONS.get(role, [])`. -/
def role_permission_list (role : String) : List String :=
  (ROLE_PERMISSIONS.lookup role).getD []

/-- `has_permission` — `app/core/permissions.py` lines 330–346. -/
def has_permission (role permission : String) : Bool :=
  if role == RoleEnum.ADMIN_GENERAL then
    true
  else
    let permissions := role_permission_list role
    permissions.contains permission || permissions.contains "all"

/-- `get_role_permissions` — `app/core/permissions.py` lines 359–369.
The Python builds a `set` over every role's permission list and discards
`"all"`; we model the set by `dedup` of the concatenation. -/
def get_role_permissions (role : String) : List String :=
  if role == RoleEnum.ADMIN_GENERAL then
    (((ROLE_PERMISSIONS.map Prod.snd).flatten).filter (fun p => p != "all")).dedup
  else
    role_permission_list role

/-- `can_create_user` — `app/core/permissions.py` lines 682–691. -/
def can_create_user (creator_role _new_user_role : String) : Bool :=
  creator_role == RoleEnum.ADMIN_GENERAL

/-- `can_change_role` — `app/core/permissions.py` lines 716–721. -/
def can_change_role (changer_role _new_role : String) : Bool :=
  changer_role == RoleEnum.ADMIN_GENERAL

/-- The `require_roles(ADMIN_GENERAL)` dependency used by `require_admin()`:
admin passes immediately, everyone else must be in the allowed list
(which contains only the admin role), so only `admin_general` passes. -/
def require_admin_gate (role : String) : Bool :=
  role == RoleEnum.ADMIN_GENERAL

/-! ## Error taxonomy (spec §7) — each `Except.error` models an
`HTTPException` raised before any mutation: 403 → `forbidden`,
404 → `notFound`, 400 on an illegal state transition → `invalidState`,
400 on a malformed/out-of-range input → `validationError`,
400 on a uniqueness violation → `conflict`. -/

inductive ApiError where
  | forbidden
  | notFound
  | invalidState
  | validationError
  | conflict
  deriving Repr, DecidableEq

/-! ## Data scoping — `app/core/permissions.py`, class `DataFilter` -/

/-- Dict rows for employees: an association list from field name to value
(the values' type is irrelevant to the scoping logic, so it is a
parameter).  `dict_pop d k` is Python's `d.pop(k, None)` restricted to its
effect on the dict. -/
def dict_pop {α : Type} (d : List (String × α)) (key : String) : List (String × α) :=
  d.filter (fun kv => kv.fst != key)

namespace DataFilter

/-- `DataFilter.filter_employes` — `app/core/permissions.py` lines 587–606. -/
def filter_employes {α : Type} (user : UserCtx) (employes : List (List (String × α))) :
    List (List (String × α)) :=
  if has_permission user.role "view_salaires" then
    employes
  else
    employes.map (fun emp =>
      dict_pop (dict_pop (dict_pop emp "salaire") "salaire_journalier") "info_bancaire")

end DataFilter

/-- A document row as consumed by `DataFilter.filter_documents`
(`d.get("valide_client", False)` and `d.get("type")`). -/
structure DocRow where
  valide_client : Bool := false
  type : String := ""
  deriving Repr, DecidableEq

namespace DataFilter

/-- `DataFilter.filter_documents` — `app/core/permissions.py` lines 608–628. -/
def filter_documents (user : UserCtx) (documents : List DocRow) : List DocRow :=
  if user.role == RoleEnum.CLIENT then
    documents.filter (fun d => d.valide_client)
  else if user.role == RoleEnum.COMPTABLE then
    documents.filter (fun d =>
      ["facture", "bon_livraison", "devis", "contrat"].contains d.type)
  else
    documents

end DataFilter

/-! ## Expense workflow — `app/api/v1/endpoints/depenses.py` -/

namespace DepenseStatus

def EN_ATTENTE : String := "en_attente"

def VALIDEE_CHANTIER : String := "validee_chantier"

def APPROUVEE : String := "approuvee"

def REJETEE : String := "rejetee"

def ANNULEE : String := "annulee"

end DepenseStatus

/-- A `chantiers` row (the fields the expense workflow touches).
`budget_consomme` is nullable in the ORM and the approval path guards
`if chantier.budget_consomme is None`. -/
structure Chantier where
  id : Int
  budget_consomme : Option Int := some 0
  deriving Repr, DecidableEq

/-- A `depenses` row (the fields the claims touch). -/
structure Depense where
  id : Int
  montant : Int
  chantier_id : Int
  status : String
  created_by : Int := 0
  approved_by : Option Int := none
  rejected_by : Option Int := none
  motif_rejet : Option String := none
  deriving Repr, DecidableEq

/-- The portion of the database the expense endpoints read and write. -/
structure DepensesState where
  chantiers : List Chantier
  depenses : List Depense
  deriving Repr, DecidableEq

/-- Input schema `DepenseCreate` (fields the control flow uses). -/
structure DepenseCreate where
  chantier_id : Int
  montant : Int
  deriving Repr, DecidableEq

/-- `create_depense` — `depenses.py` lines 160–231, including its
`require_permission("create_depense")` dependency gate.  The generated
unique `reference` string is not modelled (no claim mentions it);
`new_id` stands for the id the database assigns to the inserted row. -/
def create_depense (st : DepensesState) (data : DepenseCreate) (user : UserCtx)
    (new_id : Int) : Except ApiError (DepensesState × Depense) :=
  if ¬ has_permission user.role "create_depense" then
    .error .forbidden
  else if ¬ st.chantiers.any (fun c => c.id == data.chantier_id) then
    .error .notFound
  else if user.role == RoleEnum.CHEF_CHANTIER
      && ¬ (user.chantier_id == some data.chantier_id
            || user.chantiers_assignes.contains data.chantier_id) then
    .error .forbidden
  else
    let depense : Depense :=
      { id := new_id
        montant := data.montant
        chantier_id := data.chantier_id
        status := DepenseStatus.EN_ATTENTE
        created_by := user.user_id }
    .ok ({ st with depenses := st.depenses ++ [depense] }, depense)

/-- `approve_depense` — `depenses.py` lines 391–452, including its
`require_admin()` dependency gate. -/
def approve_depense (st : DepensesState) (i : Int) (user : UserCtx) :
    Except ApiError DepensesState :=
  if ¬ require_admin_gate user.role then
    .error .forbidden
  else
    match st.depenses.find? (fun d => d.id == i) with
    | none => .error .notFound
    | some depense =>
      if depense.status == DepenseStatus.APPROUVEE then
        .error .invalidState
      else if depense.status == DepenseStatus.REJETEE then
        .error .invalidState
      else
        let depenses' := st.depenses.map (fun d =>
          if d.id == i then
            { d with status := DepenseStatus.APPROUVEE, approved_by := some user.user_id }
          else d)
        let chantiers' := st.chantiers.map (fun c =>
          if c.id == depense.chantier_id then
            { c with budget_consomme := some (c.budget_consomme.getD 0 + depense.montant) }
          else c)
        .ok { chantiers := chantiers', depenses := depenses' }

/-- `reject_depense` — `depenses.py` lines 459–502, including its
`require_admin()` dependency gate. -/
def reject_depense (st : DepensesState) (i : Int) (user : UserCtx)
    (motif : String) : Except ApiError DepensesState :=
  if ¬ require_admin_gate user.role then
    .error .forbidden
  else
    match st.depenses.find? (fun d => d.id == i) with
    | none => .error .notFound
    | some depense =>
      if depense.status == DepenseStatus.APPROUVEE then
        .error .invalidState
      else
        let depenses' := st.depenses.map (fun d =>
          if d.id == i then
            { d with status := DepenseStatus.REJETEE
                     rejected_by := some user.user_id
                     motif_rejet := some motif }
          else d)
        .ok { st with depenses := depenses' }

/-! ## Stock ledger & transfer — `app/api/v1/endpoints/materiels.py` -/

namespace TypeMouvement

def ENTREE : String := "entree"

def SORTIE : String := "sortie"

def TRANSFERT_ENTRANT : String := "transfert_entrant"

def TRANSFERT_SORTANT : String := "transfert_sortant"

def AJUSTEMENT : String := "ajustement"

def RECEPTION : String := "reception"

end TypeMouvement

/-- A `materiels` row (the columns the transfer path copies or mutates). -/
structure Materiel where
  id : Int
  nom : String
  description : Option String := none
  unite : String := ""
  quantite : Int
  seuil_alerte : Option Int := none
  prix_unitaire : Option Int := none
  categorie : Option String := none
  chantier_id : Int
  created_by : Int := 0
  deriving Repr, DecidableEq

/-- A `mouvements_stock` row.  The human-readable `motif` message the
endpoint formats around the request's motif is abstracted to the raw
request motif (no claim depends on the message text). -/
structure MouvementStock where
  materiel_id : Int
  type_mouvement : String
  quantite : Int
  motif : String := ""
  created_by : Int
  deriving Repr, DecidableEq

/-- The portion of the database the stock endpoints read and write;
`next_materiel_id` is the id the database would assign to a row created
by the transfer. -/
structure StockState where
  chantiers : List Int
  materiels : List Materiel
  mouvements : List MouvementStock
  next_materiel_id : Int
  deriving Repr, DecidableEq

/-- Input schema `TransfertRequest`. -/
structure TransfertRequest where
  materiel_id : Int
  quantite : Int
  chantier_source_id : Int
  chantier_destination_id : Int
  motif : Option String := none
  deriving Repr, DecidableEq

/-- `transferer_materiel` — `materiels.py` lines 519–636, including its
`require_permission("transfer_stock")` dependency gate. -/
def transferer_materiel (st : StockState) (data : TransfertRequest) (user : UserCtx) :
    Except ApiError StockState :=
  if ¬ has_permission user.role "transfer_stock" then
    .error .forbidden
  else if ¬ st.chantiers.contains data.chantier_source_id then
    .error .notFound
  else if ¬ st.chantiers.contains data.chantier_destination_id then
    .error .notFound
  else
    match st.materiels.find? (fun m =>
        m.id == data.materiel_id && m.chantier_id == data.chantier_source_id) with
    | none => .error .notFound
    | some materiel_source =>
      if materiel_source.quantite < data.quantite then
        .error .validationError
      else
        let materiels₁ := st.materiels.map (fun m =>
          if m.id == data.materiel_id && m.chantier_id == data.chantier_source_id then
            { m with quantite := m.quantite - data.quantite }
          else m)
        let motif := data.motif.getD ""
        let mouvement_sortie : MouvementStock :=
          { materiel_id := materiel_source.id
            type_mouvement := TypeMouvement.TRANSFERT_SORTANT
            quantite := data.quantite
            motif := motif
            created_by := user.user_id }
        match materiels₁.find? (fun m =>
            m.nom == materiel_source.nom
            && m.chantier_id == data.chantier_destination_id) with
        | some materiel_dest =>
          let materiels₂ := materiels₁.map (fun m =>
            if m.nom == materiel_source.nom
                && m.chantier_id == data.chantier_destination_id then
              { m with quantite := m.quantite + data.quantite }
            else m)
          let mouvement_entree : MouvementStock :=
            { materiel_id := materiel_dest.id
              type_mouvement := TypeMouvement.TRANSFERT_ENTRANT
              quantite := data.quantite
              motif := motif
              created_by := user.user_id }
          .ok { st with
                materiels := materiels₂
                mouvements := st.mouvements ++ [mouvement_sortie, mouvement_entree] }
        | none =>
          let materiel_dest : Materiel :=
            { id := st.next_materiel_id
              nom := materiel_source.nom
              description := materiel_source.description
              unite := materiel_source.unite
              quantite := data.quantite
              seuil_alerte := materiel_source.seuil_alerte
              prix_unitaire := materiel_source.prix_unitaire
              categorie := materiel_source.categorie
              chantier_id := data.chantier_destination_id
              created_by := user.user_id }
          let mouvement_entree : MouvementStock :=
            { materiel_id := materiel_dest.id
              type_mouvement := TypeMouvement.TRANSFERT_ENTRANT
              quantite := data.quantite
              motif := motif
              created_by := user.user_id }
          .ok { st with
                materiels := materiels₁ ++ [materiel_dest]
                mouvements := st.mouvements ++ [mouvement_sortie, mouvement_entree]
                next_materiel_id := st.next_materiel_id + 1 }

/-! ## User management — `app/api/v1/endpoints/auth.py` -/

/-- A `users` row (fields the registration / role-change paths use). -/
structure UserRow where
  id : Int
  email : String
  role : String
  phone : Option String := none
  chantier_id : Option Int := none
  is_active : Bool := true
  deriving Repr, DecidableEq

/-- The portion of the database the auth endpoints read and write. -/
structure AuthState where
  users : List UserRow
  next_user_id : Int
  deriving Repr, DecidableEq

/-- Input schema `UserCreate` (fields the control flow uses). -/
structure UserCreate where
  email : String
  role : String
  phone : Option String := none
  chantier_id : Option Int := none
  deriving Repr, DecidableEq

/-- `VALID_ROLES` — `auth.py` lines 47–56. -/
def VALID_ROLES : List String := RoleEnum.all_roles

/-- `register` — `auth.py` lines 63–143, including its `require_admin()`
dependency gate. -/
def register (st : AuthState) (current_user : UserCtx) (data : UserCreate) :
    Except ApiError AuthState :=
  if ¬ require_admin_gate current_user.role then
    .error .forbidden
  else if ¬ can_create_user current_user.role data.role then
    .error .forbidden
  else if data.role == RoleEnum.ADMIN_GENERAL
      && st.users.any (fun u => u.role == RoleEnum.ADMIN_GENERAL) then
    .error .forbidden
  else if ¬ VALID_ROLES.contains data.role then
    .error .validationError
  else if st.users.any (fun u => u.email == data.email) then
    .error .conflict
  else if data.phone.isSome
      && st.users.any (fun u => u.phone == data.phone) then
    .error .conflict
  else
    .ok { users := st.users ++
            [{ id := st.next_user_id
               email := data.email
               role := data.role
               phone := data.phone
               chantier_id := data.chantier_id }]
          next_user_id := st.next_user_id + 1 }

/-- `setup_first_admin` — `auth.py` lines 150–197 (unauthenticated). -/
def setup_first_admin (st : AuthState) (data : UserCreate) :
    Except ApiError AuthState :=
  if st.users.any (fun u => u.role == RoleEnum.ADMIN_GENERAL) then
    .error .forbidden
  else if st.users.any (fun u => u.email == data.email) then
    .error .conflict
  else
    .ok { users := st.users ++
            [{ id := st.next_user_id
               email := data.email
               role := RoleEnum.ADMIN_GENERAL
               phone := data.phone }]
          next_user_id := st.next_user_id + 1 }

/-- `update_user_role` — `auth.py` lines 420–495, including its
`require_admin()` dependency gate. -/
def update_user_role (st : AuthState) (current_user : UserCtx) (user_id : Int)
    (role : String) (chantier_id : Option Int) : Except ApiError AuthState :=
  if ¬ require_admin_gate current_user.role then
    .error .forbidden
  else if ¬ can_change_role current_user.role role then
    .error .forbidden
  else
    match st.users.find? (fun u => u.id == user_id) with
    | none => .error .notFound
    | some target =>
      if target.id == current_user.user_id then
        .error .invalidState
      else if target.role == RoleEnum.ADMIN_GENERAL then
        .error .forbidden
      else if ¬ VALID_ROLES.contains role then
        .error .validationError
      else if role == RoleEnum.ADMIN_GENERAL then
        .error .forbidden
      else
        .ok { st with users := st.users.map (fun u =>
                if u.id == user_id then
                  { u with role := role
                           chantier_id := match chantier_id with
                             | some c => some c
                             | none => u.chantier_id }
                else u) }

/-- Number of `admin_general` rows in the user table. -/
def count_admins (st : AuthState) : Nat :=
  st.users.countP (fun u => u.role == RoleEnum.ADMIN_GENERAL)

/-! ## Documents — `app/api/v1/endpoints/documents.py` -/

namespace DocumentType

def PLAN : String := "plan"

def DEVIS : String := "devis"

def CONTRAT : String := "contrat"

def RAPPORT : String := "rapport"

def FACTURE : String := "facture"

def BON_LIVRAISON : String := "bon_livraison"

def PHOTO : String := "photo"

def VIDEO : String := "video"

def PERMIS : String := "permis"

def AUTRE : String := "autre"

def all_types : List String :=
  [PLAN, DEVIS, CONTRAT, RAPPORT, FACTURE, BON_LIVRAISON,
   PHOTO, VIDEO, PERMIS, AUTRE]

def types_comptable : List String :=
  [FACTURE, BON_LIVRAISON, DEVIS, CONTRAT]

end DocumentType

/-- A `documents` row as the upload endpoint constructs it.  The stored
`fichier_path` is a generated UUID name, abstracted to the original
filename (no claim depends on it). -/
structure Document where
  id : Int
  nom : String
  type_document : String
  fichier_path : String := ""
  taille : Int := 0
  description : Option String := none
  chantier_id : Int
  uploaded_by : Int
  valide_client : Bool
  deriving Repr, DecidableEq

/-- The uploaded file as the endpoint observes it: original filename, its
lower-cased extension (`os.path.splitext(...)[1].lower()`), and the byte
length of the content. -/
structure UploadFileData where
  filename : String
  ext : String
  size : Int
  deriving Repr, DecidableEq

def allowed_extensions : List String :=
  [".jpg", ".jpeg", ".png", ".gif", ".pdf", ".doc", ".docx",
   ".xls", ".xlsx", ".mp4", ".mov", ".avi"]

/-- The portion of the database the document endpoints read and write. -/
structure DocState where
  chantiers : List Int
  documents : List Document
  next_document_id : Int
  deriving Repr, DecidableEq

/-- `upload_document` — `documents.py` lines 100–205, including its
`require_permission("upload_document")` dependency gate. -/
def upload_document (st : DocState) (file : UploadFileData) (chantier_id : Int)
    (type_document : String) (description : Option String) (user : UserCtx) :
    Except ApiError (DocState × Document) :=
  if ¬ has_permission user.role "upload_document" then
    .error .forbidden
  else if ¬ st.chantiers.contains chantier_id then
    .error .notFound
  else if user.role != RoleEnum.ADMIN_GENERAL
      && ¬ has_chantier_access user chantier_id then
    .error .forbidden
  else if user.role == RoleEnum.MAGASINIER
      && ¬ [DocumentType.BON_LIVRAISON, DocumentType.PHOTO].contains type_document then
    .error .forbidden
  else if ¬ DocumentType.all_types.contains type_document then
    .error .validationError
  else if ¬ allowed_extensions.contains file.ext then
    .error .validationError
  else if file.size > 50 * 1024 * 1024 then
    .error .validationError
  else
    let document : Document :=
      { id := st.next_document_id
        nom := file.filename
        type_document := type_document
        fichier_path := file.filename
        taille := file.size
        description := description
        chantier_id := chantier_id
        uploaded_by := user.user_id
        valide_client := false }
    .ok ({ st with documents := st.documents ++ [document]
                   next_document_id := st.next_document_id + 1 },
         document)

/-! ## Sample request contexts and states used to instantiate theorems -/

def sampleAdmin : UserCtx := ⟨99, RoleEnum.ADMIN_GENERAL, [], none⟩

def sampleClient : UserCtx := ⟨5, RoleEnum.CLIENT, [], none⟩

def sampleOuvrier : UserCtx := ⟨6, RoleEnum.OUVRIER, [], none⟩

def sampleMagasinier : UserCtx := ⟨4, RoleEnum.MAGASINIER, [], none⟩

def sampleChantier : Chantier := ⟨1, some 10⟩

def sampleDepenseApprouvee : Depense :=
  { id := 7, montant := 5, chantier_id := 1, status := DepenseStatus.APPROUVEE }

def sampleDepensesState : DepensesState :=
  { chantiers := [sampleChantier], depenses := [sampleDepenseApprouvee] }

def sampleMatSrc : Materiel :=
  { id := 10, nom := "ciment", quantite := 8, chantier_id := 1 }

def sampleStock : StockState :=
  { chantiers := [1, 2]
    materiels := [sampleMatSrc,
                  { id := 11, nom := "ciment", quantite := 3, chantier_id := 2 }]
    mouvements := []
    next_materiel_id := 12 }

def sampleAuthState : AuthState :=
  { users := [{ id := 1, email := "admin@nexus.sn", role := RoleEnum.ADMIN_GENERAL }]
    next_user_id := 2 }

def sampleDocState : DocState :=
  { chantiers := [1], documents := [], next_document_id := 1 }

def sampleUploadFile : UploadFileData := ⟨"photo1.jpg", ".jpg", 100⟩

def uploadedDocument : Document :=
  { id := 1, nom := "photo1.jpg", type_document := DocumentType.PHOTO
    fichier_path := "photo1.jpg", taille := 100, description := none
    chantier_id := 1, uploaded_by := 99, valide_client := false }

def docStateAfterUpload : DocState :=
  { chantiers := [1], documents := [uploadedDocument], next_document_id := 2 }

/-! ## General helper lemmas -/

/-- `lookup` misses when no key of the association list equals the key. -/
theorem lookup_eq_none_of_keys_ne {β : Type} (a : String) (l : List (String × β))
    (h : ∀ kv ∈ l, kv.1 ≠ a) : l.lookup a = none := by
  induction l with
  | nil => rfl
  | cons kv t ih =>
    have hne : (a == kv.1) = false :=
      beq_eq_false_iff_ne.mpr (Ne.symm (h kv (by simp)))
    obtain ⟨k, v⟩ := kv
    simp only [List.lookup, hne]
    exact ih (fun kv' hkv' => h kv' (by simp [hkv']))

/-- `List.contains` agrees with membership (lawful `BEq`). -/
theorem contains_iff_mem {α : Type} [BEq α] [LawfulBEq α] (l : List α) (a : α) :
    l.contains a = true ↔ a ∈ l := by
  simp [List.contains_iff_exists_mem_beq]

/-- A `Bool` known to be `false` is not `true`. -/
theorem ne_true_of_eq_false {b : Bool} (h : b = false) : ¬(b = true) := by
  simp [h]

/-- `find?` commutes with a `map` whose function preserves the predicate. -/
theorem find?_map_of_pred_eq {α : Type} (f : α → α) (p : α → Bool) (l : List α)
    (h : ∀ x, p (f x) = p x) : (l.map f).find? p = (l.find? p).map f := by
  induction l with
  | nil => rfl
  | cons a t ih =>
    by_cases hpa : p a = true
    · rw [List.map_cons, List.find?_cons_of_pos _ (by rw [h a]; exact hpa),
          List.find?_cons_of_pos _ hpa]
      rfl
    · rw [List.map_cons,
          List.find?_cons_of_neg _ (by rw [h a]; exact hpa),
          List.find?_cons_of_neg _ hpa]
      exact ih

/-- `find?` over an append when the first part already hits. -/
theorem find?_append_of_some {α : Type} (p : α → Bool) (l₁ l₂ : List α) (a : α)
    (h : l₁.find? p = some a) : (l₁ ++ l₂).find? p = some a := by
  induction l₁ with
  | nil => simp [List.find?] at h
  | cons x t ih =>
    by_cases hpx : p x = true
    · rw [List.find?_cons_of_pos _ hpx] at h
      rw [List.cons_append, List.find?_cons_of_pos _ hpx]
      exact h
    · rw [List.find?_cons_of_neg _ hpx] at h
      rw [List.cons_append, List.find?_cons_of_neg _ hpx]
      exact ih h

/-- `find?` over an append when the first part misses. -/
theorem find?_append_of_none {α : Type} (p : α → Bool) (l₁ l₂ : List α)
    (h : l₁.find? p = none) : (l₁ ++ l₂).find? p = l₂.find? p := by
  induction l₁ with
  | nil => rfl
  | cons x t ih =>
    by_cases hpx : p x = true
    · rw [List.find?_cons_of_pos _ hpx] at h
      exact absurd h (by simp)
    · rw [List.find?_cons_of_neg _ hpx] at h
      rw [List.cons_append, List.find?_cons_of_neg _ hpx]
      exact ih h

/-! ## Claim theorems -/

/-- C2: for every role other than `admin_general`, `has_permission role p`
holds iff `p` is in the role's static permission list or that list contains
the `"all"` wildcard; `admin_general` satisfies `has_permission` for every
permission (hence for every permission in any other role's table); and
`get_role_permissions admin_general` is exactly the union of the real
permissions (the `"all"` wildcard marker excluded) granted to any role in
the table. -/
theorem has_permission_spec :
    (∀ role p, role ≠ RoleEnum.ADMIN_GENERAL →
      (has_permission role p = true ↔
        p ∈ role_permission_list role ∨ "all" ∈ role_permission_list role)) ∧
    (∀ p, has_permission RoleEnum.ADMIN_GENERAL p = true) ∧
    (∀ p, p ∈ get_role_permissions RoleEnum.ADMIN_GENERAL ↔
      ∃ r ps, (r, ps) ∈ ROLE_PERMISSIONS ∧ p ∈ ps ∧ p ≠ "all") := by
  refine ⟨?_, ?_, ?_⟩
  · intro role p hrole
    have hbeq : (role == RoleEnum.ADMIN_GENERAL) = false :=
      beq_eq_false_iff_ne.mpr hrole
    simp [has_permission, hbeq]
  · intro p
    simp [has_permission]
  · intro p
    have hbeq : (RoleEnum.ADMIN_GENERAL == RoleEnum.ADMIN_GENERAL) = true := by
      simp
    simp only [get_role_permissions, hbeq, if_true, List.mem_dedup,
      List.mem_filter, List.mem_flatten, List.mem_map, bne_iff_ne, ne_eq]
    constructor
    · rintro ⟨⟨l, ⟨⟨r, ps⟩, hmem, rfl⟩, hp⟩, hne⟩
      exact ⟨r, ps, hmem, hp, hne⟩
    · rintro ⟨r, ps, hmem, hp, hne⟩
      exact ⟨⟨ps, ⟨⟨r, ps⟩, hmem, rfl⟩, hp⟩, hne⟩

/-- C2 witness: concrete instantiation — `comptable` holds `view_salaires`
through its static list, and `view_salaires` is in the admin union. -/
theorem has_permission_spec_witness :
    RoleEnum.COMPTABLE ≠ RoleEnum.ADMIN_GENERAL ∧
    has_permission RoleEnum.COMPTABLE "view_salaires" = true ∧
    "view_salaires" ∈ get_role_permissions RoleEnum.ADMIN_GENERAL := by
  refine ⟨by decide, ?_, ?_⟩
  · exact (has_permission_spec.1 RoleEnum.COMPTABLE "view_salaires" (by decide)).mpr
      (Or.inl (by decide))
  · exact (has_permission_spec.2.2 "view_salaires").mpr
      ⟨RoleEnum.COMPTABLE, role_permission_list RoleEnum.COMPTABLE,
        by decide, by decide, by decide⟩

/-- C3: `has_chantier_access` grants access exactly to the four
global-access roles (`admin_general`, `direction`, `comptable`,
`magasinier`) and, for any other role, exactly when the site id is among
the identity's assigned sites. -/
theorem has_chantier_access_spec (user : UserCtx) (chantier_id : Int) :
    has_chantier_access user chantier_id = true ↔
      ((user.role = RoleEnum.ADMIN_GENERAL ∨ user.role = RoleEnum.DIRECTION ∨
        user.role = RoleEnum.COMPTABLE ∨ user.role = RoleEnum.MAGASINIER) ∨
       chantier_id ∈ user.chantiers_assignes) := by
  simp only [has_chantier_access]
  by_cases h : user.role ∈ ([RoleEnum.ADMIN_GENERAL, RoleEnum.DIRECTION,
      RoleEnum.COMPTABLE, RoleEnum.MAGASINIER] : List String)
  · rw [if_pos ((contains_iff_mem _ _).mpr h)]
    simp only [List.mem_cons, List.not_mem_nil, or_false] at h
    simp [h]
  · rw [if_neg (fun hc => h ((contains_iff_mem _ _).mp hc))]
    have h' : ¬(user.role = RoleEnum.ADMIN_GENERAL ∨ user.role = RoleEnum.DIRECTION ∨
        user.role = RoleEnum.COMPTABLE ∨ user.role = RoleEnum.MAGASINIER) := by
      simpa using h
    rw [contains_iff_mem]
    simp [h']

/-- C9: every role string outside the fixed 8-role vocabulary gets
hierarchy level 0, an empty permission list, and no permission at all
(fail-closed default). -/
theorem unknown_role_fail_closed (role : String)
    (h : role ∉ RoleEnum.all_roles) :
    get_role_level role = 0 ∧ get_role_permissions role = [] ∧
    ∀ p, has_permission role p = false := by
  have h1 : role ≠ RoleEnum.ADMIN_GENERAL := by
    intro e; subst e; exact h (by decide)
  have h2 : role ≠ RoleEnum.ADMIN_CHANTIER := by
    intro e; subst e; exact h (by decide)
  have h3 : role ≠ RoleEnum.COMPTABLE := by
    intro e; subst e; exact h (by decide)
  have h4 : role ≠ RoleEnum.CHEF_CHANTIER := by
    intro e; subst e; exact h (by decide)
  have h5 : role ≠ RoleEnum.MAGASINIER := by
    intro e; subst e; exact h (by decide)
  have h6 : role ≠ RoleEnum.OUVRIER := by
    intro e; subst e; exact h (by decide)
  have h7 : role ≠ RoleEnum.CLIENT := by
    intro e; subst e; exact h (by decide)
  have h8 : role ≠ RoleEnum.DIRECTION := by
    intro e; subst e; exact h (by decide)
  have hinfo : ROLE_INFO.lookup role = none := by
    apply lookup_eq_none_of_keys_ne
    intro kv hkv
    simp only [ROLE_INFO, List.mem_cons, List.not_mem_nil, or_false] at hkv
    rcases hkv with rfl | rfl | rfl | rfl | rfl | rfl | rfl | rfl <;>
      first
        | exact Ne.symm h1 | exact Ne.symm h2 | exact Ne.symm h3
        | exact Ne.symm h4 | exact Ne.symm h5 | exact Ne.symm h6
        | exact Ne.symm h7 | exact Ne.symm h8
  have hperms : ROLE_PERMISSIONS.lookup role = none := by
    apply lookup_eq_none_of_keys_ne
    intro kv hkv
    simp only [ROLE_PERMISSIONS, List.mem_cons, List.not_mem_nil, or_false] at hkv
    rcases hkv with rfl | rfl | rfl | rfl | rfl | rfl | rfl | rfl <;>
      first
        | exact Ne.symm h1 | exact Ne.symm h2 | exact Ne.symm h3
        | exact Ne.symm h4 | exact Ne.symm h5 | exact Ne.symm h6
        | exact Ne.symm h7 | exact Ne.symm h8
  have hbeq : (role == RoleEnum.ADMIN_GENERAL) = false :=
    beq_eq_false_iff_ne.mpr h1
  refine ⟨?_, ?_, ?_⟩
  · simp [get_role_level, get_role_info, hinfo]
  · simp [get_role_permissions, hbeq, role_permission_list, hperms]
  · intro p
    simp [has_permission, hbeq, role_permission_list, hperms]

/-- C9 witness: the unknown role string `"superuser"`. -/
theorem unknown_role_fail_closed_witness :
    get_role_level "superuser" = 0 ∧ get_role_permissions "superuser" = [] ∧
    has_permission "superuser" "view_depenses" = false := by
  have h := unknown_role_fail_closed "superuser" (by decide)
  exact ⟨h.1, h.2.1, h.2.2 "view_depenses"⟩

/-- C5: for a `client` identity, document scoping returns exactly the
records whose `valide_client` flag is set — row filtering that depends only
on the role tag, not on any permission lookup. -/
theorem filter_documents_client_spec (user : UserCtx) (documents : List DocRow)
    (h : user.role = RoleEnum.CLIENT) :
    DataFilter.filter_documents user documents
        = documents.filter (fun d => d.valide_client) ∧
    ∀ d, d ∈ DataFilter.filter_documents user documents ↔
      d ∈ documents ∧ d.valide_client = true := by
  have hfd : DataFilter.filter_documents user documents
      = documents.filter (fun d => d.valide_client) := by
    simp [DataFilter.filter_documents, h]
  refine ⟨hfd, ?_⟩
  intro d
  rw [hfd]
  simp [List.mem_filter]

/-- C5 witness: a mixed collection keeps exactly its validated document. -/
theorem filter_documents_client_spec_witness :
    DataFilter.filter_documents sampleClient
        [⟨true, "photo"⟩, ⟨false, "plan"⟩] = [⟨true, "photo"⟩] := by
  have h := filter_documents_client_spec sampleClient
    [⟨true, "photo"⟩, ⟨false, "plan"⟩] (by decide)
  rw [h.1]
  decide

/-- C6: a role holding `view_salaires` receives employee records
unmodified; a role lacking it receives every record (same length, no row
filtering) with the `salaire`, `salaire_journalier` and `info_bancaire`
keys removed from each record and every other binding kept. -/
theorem filter_employes_redaction_spec {α : Type} (user : UserCtx)
    (employes : List (List (String × α))) :
    (has_permission user.role "view_salaires" = true →
      DataFilter.filter_employes user employes = employes) ∧
    (has_permission user.role "view_salaires" = false →
      DataFilter.filter_employes user employes
          = employes.map (fun emp => emp.filter (fun kv =>
              !(kv.1 == "salaire") && !(kv.1 == "salaire_journalier")
                && !(kv.1 == "info_bancaire"))) ∧
      (DataFilter.filter_employes user employes).length = employes.length ∧
      ∀ emp ∈ DataFilter.filter_employes user employes, ∀ kv ∈ emp,
        kv.1 ≠ "salaire" ∧ kv.1 ≠ "salaire_journalier" ∧
          kv.1 ≠ "info_bancaire") := by
  constructor
  · intro hp
    simp [DataFilter.filter_employes, hp]
  · intro hp
    have hmap : DataFilter.filter_employes user employes
        = employes.map (fun emp => emp.filter (fun kv =>
            !(kv.1 == "salaire") && !(kv.1 == "salaire_journalier")
              && !(kv.1 == "info_bancaire"))) := by
      simp only [DataFilter.filter_employes, hp, Bool.false_eq_true, if_false]
      apply List.map_congr_left
      intro emp _
      simp only [dict_pop, List.filter_filter]
      apply List.filter_congr
      intro kv _
      cases hkv1 : kv.1 == "salaire" <;>
        cases hkv2 : kv.1 == "salaire_journalier" <;>
          cases hkv3 : kv.1 == "info_bancaire" <;>
            simp [bne, hkv1, hkv2, hkv3]
    refine ⟨hmap, by rw [hmap]; simp, ?_⟩
    intro emp hemp kv hkv
    rw [hmap] at hemp
    obtain ⟨emp₀, _, rfl⟩ := List.mem_map.mp hemp
    have := (List.mem_filter.mp hkv).2
    simp only [Bool.and_eq_true, Bool.not_eq_true', beq_eq_false_iff_ne,
      ne_eq] at this
    exact ⟨this.1.1, this.1.2, this.2⟩

/-- C6 witness: an `ouvrier` (no `view_salaires`) gets the record with the
salary and banking keys removed; the name key survives. -/
theorem filter_employes_redaction_spec_witness :
    DataFilter.filter_employes (α := Int) sampleOuvrier
        [[("nom", 1), ("salaire", 2), ("info_bancaire", 3)]]
      = [[("nom", 1)]] := by
  have h := (filter_employes_redaction_spec (α := Int) sampleOuvrier
    [[("nom", 1), ("salaire", 2), ("info_bancaire", 3)]]).2 (by decide)
  rw [h.1]
  decide

/-- C1: once an expense is `approuvee`, a further `approve` call and any
`reject` call are both rejected with an `InvalidState` error (raised before
any mutation, so the owning site's `budget_consomme` is untouched); and a
successful approval — the only path that mutates `budget_consomme` — sets
the expense's status to `approuvee` and adds its `montant` to the owning
site's `budget_consomme` exactly once, leaving every other site's row
unchanged.  Re-approval being rejected, the increment can happen at most
once per expense. -/
theorem approve_depense_spec (st : DepensesState) (user : UserCtx)
    (i : Int) (d : Depense) (c0 : Chantier) (motif : String)
    (hadmin : user.role = RoleEnum.ADMIN_GENERAL)
    (hd : st.depenses.find? (fun x => x.id == i) = some d)
    (hc : st.chantiers.find? (fun c => c.id == d.chantier_id) = some c0) :
    (d.status = DepenseStatus.APPROUVEE →
      approve_depense st i user = .error .invalidState ∧
      reject_depense st i user motif = .error .invalidState) ∧
    (d.status ≠ DepenseStatus.APPROUVEE → d.status ≠ DepenseStatus.REJETEE →
      ∃ st', approve_depense st i user = .ok st' ∧
        st'.depenses.find? (fun x => x.id == i)
          = some { d with status := DepenseStatus.APPROUVEE
                          approved_by := some user.user_id } ∧
        st'.chantiers.find? (fun c => c.id == d.chantier_id)
          = some { c0 with
                     budget_consomme := some (c0.budget_consomme.getD 0 + d.montant) } ∧
        ∀ c ∈ st.chantiers, c.id ≠ d.chantier_id → c ∈ st'.chantiers) := by
  have hgate : require_admin_gate user.role = true := by
    simp [require_admin_gate, hadmin]
  have hdid : (d.id == i) = true := by simpa using List.find?_some hd
  have hcid : (c0.id == d.chantier_id) = true := by simpa using List.find?_some hc
  constructor
  · intro hst
    have hb : (d.status == DepenseStatus.APPROUVEE) = true := by
      simp [hst]
    constructor
    · simp [approve_depense, hgate, hd, hb]
    · simp [reject_depense, hgate, hd, hb]
  · intro h1 h2
    have hb1 : (d.status == DepenseStatus.APPROUVEE) = false :=
      beq_eq_false_iff_ne.mpr h1
    have hb2 : (d.status == DepenseStatus.REJETEE) = false :=
      beq_eq_false_iff_ne.mpr h2
    have happrove : approve_depense st i user = .ok
        { chantiers := st.chantiers.map (fun c =>
            if c.id == d.chantier_id then
              { c with budget_consomme := some (c.budget_consomme.getD 0 + d.montant) }
            else c),
          depenses := st.depenses.map (fun x =>
            if x.id == i then
              { x with status := DepenseStatus.APPROUVEE, approved_by := some user.user_id }
            else x) } := by
      simp [approve_depense, hgate, hd, hb1, hb2]
    refine ⟨_, happrove, ?_, ?_, ?_⟩
    · show (st.depenses.map (fun x =>
          if x.id == i then
            { x with status := DepenseStatus.APPROUVEE, approved_by := some user.user_id }
          else x)).find? (fun x => x.id == i) = _
      rw [find?_map_of_pred_eq _ _ _ (fun x => by
        by_cases hx : (x.id == i) = true <;> simp [hx]), hd]
      have hdid' : d.id = i := by simpa using hdid
      simp [hdid']
    · show (st.chantiers.map (fun c =>
          if c.id == d.chantier_id then
            { c with budget_consomme := some (c.budget_consomme.getD 0 + d.montant) }
          else c)).find? (fun c => c.id == d.chantier_id) = _
      rw [find?_map_of_pred_eq _ _ _ (fun c => by
        by_cases hcx : (c.id == d.chantier_id) = true <;> simp [hcx]), hc]
      have hcid' : c0.id = d.chantier_id := by simpa using hcid
      simp [hcid']
    · intro c hcmem hcne
      have hne' : (c.id == d.chantier_id) = false := beq_eq_false_iff_ne.mpr hcne
      show c ∈ st.chantiers.map (fun c =>
        if c.id == d.chantier_id then
          { c with budget_consomme := some (c.budget_consomme.getD 0 + d.montant) }
        else c)
      have hmem := List.mem_map_of_mem (fun c : Chantier =>
        if c.id == d.chantier_id then
          { c with budget_consomme := some (c.budget_consomme.getD 0 + d.montant) }
        else c) hcmem
      simpa [hne'] using hmem

/-- C1 witness: re-approving / rejecting the already-approved sample
expense is rejected with `InvalidState`. -/
theorem approve_depense_spec_witness :
    approve_depense sampleDepensesState 7 sampleAdmin = .error .invalidState ∧
    reject_depense sampleDepensesState 7 sampleAdmin "doublon"
      = .error .invalidState := by
  have h := approve_depense_spec sampleDepensesState sampleAdmin 7
    sampleDepenseApprouvee sampleChantier "doublon" (by decide) (by decide)
    (by decide)
  exact h.1 (by decide)

/-- C7 (code bug evaluation): a `chef_chantier` with assigned site 5,
creating an expense for its own existing site 5, is rejected `Forbidden` —
the `require_permission("create_depense")` gate fires because
`chef_chantier`'s permission list does not contain `create_depense`, even
though the endpoint's documentation and its (unreachable) own-site check
say a chef de chantier may create expenses for their own site. -/
theorem create_depense_chef_chantier_forbidden :
    create_depense { chantiers := [{ id := 5 }], depenses := [] }
        { chantier_id := 5, montant := 100 }
        { user_id := 2, role := RoleEnum.CHEF_CHANTIER, chantiers_assignes := [5] }
        1
      = .error .forbidden := by
  rfl

/-- C10: whenever the upload endpoint succeeds, the document it creates and
stores has `valide_client = false`, whatever the uploader's role — client
visibility can only arise later through the validate-client transition. -/
theorem upload_document_valide_client_spec (st : DocState)
    (file : UploadFileData) (chantier_id : Int) (type_document : String)
    (description : Option String) (user : UserCtx) (st' : DocState)
    (doc : Document)
    (h : upload_document st file chantier_id type_document description user
        = .ok (st', doc)) :
    doc.valide_client = false ∧ doc ∈ st'.documents := by
  simp only [upload_document] at h
  split at h
  · exact absurd h (by simp)
  · split at h
    · exact absurd h (by simp)
    · split at h
      · exact absurd h (by simp)
      · split at h
        · exact absurd h (by simp)
        · split at h
          · exact absurd h (by simp)
          · split at h
            · exact absurd h (by simp)
            · split at h
              · exact absurd h (by simp)
              · rw [Except.ok.injEq, Prod.mk.injEq] at h
                obtain ⟨hst, hdoc⟩ := h
                refine ⟨by rw [← hdoc], ?_⟩
                rw [← hst, ← hdoc]
                simp

/-- C10 witness: an admin uploading a 100-byte `photo1.jpg` as a `photo`
yields a stored document with `valide_client = false`. -/
theorem upload_document_valide_client_spec_witness :
    uploadedDocument.valide_client = false ∧
    uploadedDocument ∈ docStateAfterUpload.documents :=
  upload_document_valide_client_spec sampleDocState sampleUploadFile 1
    DocumentType.PHOTO none sampleAdmin docStateAfterUpload uploadedDocument
    (by rfl)

/-- C8: the system never gains a second `admin_general`: `register`
refuses an `admin_general` request whenever one already exists,
`setup_first_admin` refuses whenever one already exists, `update_user_role`
refuses to promote anyone to `admin_general` and refuses to touch an
existing `admin_general`, and all three operations preserve the
at-most-one-`admin_general` invariant. -/
theorem admin_general_unique_spec (st : AuthState) (cu : UserCtx)
    (data : UserCreate) (uid : Int) (role : String) (cid : Option Int) :
    (data.role = RoleEnum.ADMIN_GENERAL →
      (∃ u ∈ st.users, u.role = RoleEnum.ADMIN_GENERAL) →
      ∀ st', register st cu data ≠ .ok st') ∧
    ((∃ u ∈ st.users, u.role = RoleEnum.ADMIN_GENERAL) →
      setup_first_admin st data = .error .forbidden) ∧
    (role = RoleEnum.ADMIN_GENERAL →
      ∀ st', update_user_role st cu uid role cid ≠ .ok st') ∧
    (∀ target, st.users.find? (fun u => u.id == uid) = some target →
      target.role = RoleEnum.ADMIN_GENERAL →
      ∀ st', update_user_role st cu uid role cid ≠ .ok st') ∧
    (count_admins st ≤ 1 →
      (∀ st', register st cu data = .ok st' → count_admins st' ≤ 1) ∧
      (∀ st', setup_first_admin st data = .ok st' → count_admins st' ≤ 1) ∧
      (∀ st', update_user_role st cu uid role cid = .ok st' →
        count_admins st' ≤ 1)) := by
  refine ⟨?_, ?_, ?_, ?_, ?_⟩
  · intro hrole hex st' hok
    obtain ⟨u, hu, hur⟩ := hex
    simp only [register] at hok
    split_ifs at hok with h1 h2 h3 h4 h5 h6 <;>
      try exact Except.noConfusion hok
    exact h3 (by
      simp only [Bool.and_eq_true, List.any_eq_true]
      exact ⟨by simp [hrole], u, hu, by simp [hur]⟩)
  · intro hex
    obtain ⟨u, hu, hur⟩ := hex
    have hany : st.users.any (fun u => u.role == RoleEnum.ADMIN_GENERAL) = true := by
      simp only [List.any_eq_true]
      exact ⟨u, hu, by simp [hur]⟩
    simp [setup_first_admin, hany]
  · intro hrole st' hok
    simp only [update_user_role] at hok
    rcases hfind : st.users.find? (fun u => u.id == uid) with _ | target <;>
      simp only [hfind] at hok <;>
        split_ifs at hok with h1 h2 h3 h4 h5 h6 <;>
          try exact Except.noConfusion hok
    exact h6 (by simp [hrole])
  · intro target htarget hadm st' hok
    simp only [update_user_role, htarget] at hok
    split_ifs at hok with h1 h2 h3 h4 h5 h6 <;>
      try exact Except.noConfusion hok
    exact h4 (by simp [hadm])
  · intro hinv
    refine ⟨?_, ?_, ?_⟩
    · intro st' hok
      simp only [register] at hok
      split_ifs at hok with h1 h2 h3 h4 h5 h6 <;>
        try exact Except.noConfusion hok
      rw [Except.ok.injEq] at hok
      subst hok
      simp only [count_admins, List.countP_append, List.countP_cons,
        List.countP_nil]
      by_cases hdata : data.role = RoleEnum.ADMIN_GENERAL
      · have hzero : st.users.countP (fun u => u.role == RoleEnum.ADMIN_GENERAL) = 0 := by
          rw [List.countP_eq_zero]
          intro u hu hpu
          exact h3 (by
            simp only [Bool.and_eq_true, List.any_eq_true]
            exact ⟨by simp [hdata], u, hu, hpu⟩)
        simp [hzero, hdata]
      · have hne : (data.role == RoleEnum.ADMIN_GENERAL) = false :=
          beq_eq_false_iff_ne.mpr hdata
        have : st.users.countP (fun u => u.role == RoleEnum.ADMIN_GENERAL) ≤ 1 := hinv
        simp [hne]
        omega
    · intro st' hok
      simp only [setup_first_admin] at hok
      split_ifs at hok with h1 h2 <;> try exact Except.noConfusion hok
      rw [Except.ok.injEq] at hok
      subst hok
      have hzero : st.users.countP (fun u => u.role == RoleEnum.ADMIN_GENERAL) = 0 := by
        rw [List.countP_eq_zero]
        intro u hu hpu
        exact h1 (by
          simp only [List.any_eq_true]
          exact ⟨u, hu, hpu⟩)
      simp only [count_admins, List.countP_append, List.countP_cons,
        List.countP_nil]
      simp [hzero]
    · intro st' hok
      simp only [update_user_role] at hok
      rcases hfind : st.users.find? (fun u => u.id == uid) with _ | target <;>
        simp only [hfind] at hok <;>
          split_ifs at hok with h1 h2 h3 h4 h5 h6 <;>
            try exact Except.noConfusion hok
      case _ =>
        rw [Except.ok.injEq] at hok
        subst hok
        simp only [count_admins, List.countP_map]
        calc st.users.countP ((fun u => u.role == RoleEnum.ADMIN_GENERAL) ∘ (fun u =>
              if u.id == uid then
                { u with role := role
                         chantier_id := match cid with
                           | some c => some c
                           | none => u.chantier_id }
              else u))
            ≤ st.users.countP (fun u => u.role == RoleEnum.ADMIN_GENERAL) := by
              apply List.countP_mono_left
              intro u hu hpu
              by_cases hid : (u.id == uid) = true
              · exfalso
                apply h6
                simpa [Function.comp, hid] using hpu
              · simpa [Function.comp, hid] using hpu
          _ ≤ 1 := hinv

/-- C8 witness: with one admin on file, creating a second admin via
`register` fails, `setup_first_admin` is refused, and promoting user 1 to
`admin_general` via the role-change endpoint fails. -/
theorem admin_general_unique_spec_witness :
    setup_first_admin sampleAuthState ⟨"b@nexus.sn", "ouvrier", none, none⟩
      = .error .forbidden ∧
    (∀ st', register sampleAuthState sampleAdmin
      ⟨"b@nexus.sn", RoleEnum.ADMIN_GENERAL, none, none⟩ ≠ .ok st') := by
  constructor
  · exact (admin_general_unique_spec sampleAuthState sampleAdmin
      ⟨"b@nexus.sn", "ouvrier", none, none⟩ 1 "ouvrier" none).2.1
      ⟨{ id := 1, email := "admin@nexus.sn", role := RoleEnum.ADMIN_GENERAL },
        by decide, by decide⟩
  · exact (admin_general_unique_spec sampleAuthState sampleAdmin
      ⟨"b@nexus.sn", RoleEnum.ADMIN_GENERAL, none, none⟩ 1 "ouvrier" none).1
      (by decide)
      ⟨{ id := 1, email := "admin@nexus.sn", role := RoleEnum.ADMIN_GENERAL },
        by decide, by decide⟩

/-- C4: for a transfer of quantity `q` from a source material (balance
`bA`) to a distinct destination site: if `q ≤ bA` the call succeeds, the
source balance becomes `bA - q`, the destination material — looked up by
name and site, or freshly created with balance `0 + q` — ends at `bB + q`,
and exactly one `transfert_sortant` movement on the source and one
`transfert_entrant` movement on the destination are appended to the
ledger; if `q > bA` the call is rejected before any mutation. -/
theorem transferer_materiel_spec (st : StockState) (data : TransfertRequest)
    (user : UserCtx) (msrc : Materiel)
    (hperm : has_permission user.role "transfer_stock" = true)
    (hsrc : st.chantiers.contains data.chantier_source_id = true)
    (hdst : st.chantiers.contains data.chantier_destination_id = true)
    (hne : data.chantier_source_id ≠ data.chantier_destination_id)
    (hfind : st.materiels.find? (fun m =>
        m.id == data.materiel_id && m.chantier_id == data.chantier_source_id)
      = some msrc) :
    (msrc.quantite < data.quantite →
      transferer_materiel st data user = .error .validationError) ∧
    (data.quantite ≤ msrc.quantite →
      (∀ mdst, st.materiels.find? (fun m =>
          m.nom == msrc.nom && m.chantier_id == data.chantier_destination_id)
            = some mdst →
        ∃ st', transferer_materiel st data user = .ok st' ∧
          st'.materiels.find? (fun m =>
              m.id == data.materiel_id && m.chantier_id == data.chantier_source_id)
            = some { msrc with quantite := msrc.quantite - data.quantite } ∧
          st'.materiels.find? (fun m =>
              m.nom == msrc.nom && m.chantier_id == data.chantier_destination_id)
            = some { mdst with quantite := mdst.quantite + data.quantite } ∧
          st'.mouvements = st.mouvements ++
            [{ materiel_id := msrc.id
               type_mouvement := TypeMouvement.TRANSFERT_SORTANT
               quantite := data.quantite
               motif := data.motif.getD ""
               created_by := user.user_id },
             { materiel_id := mdst.id
               type_mouvement := TypeMouvement.TRANSFERT_ENTRANT
               quantite := data.quantite
               motif := data.motif.getD ""
               created_by := user.user_id }]) ∧
      (st.materiels.find? (fun m =>
          m.nom == msrc.nom && m.chantier_id == data.chantier_destination_id)
            = none →
        ∃ st', transferer_materiel st data user = .ok st' ∧
          st'.materiels.find? (fun m =>
              m.id == data.materiel_id && m.chantier_id == data.chantier_source_id)
            = some { msrc with quantite := msrc.quantite - data.quantite } ∧
          st'.materiels.find? (fun m =>
              m.nom == msrc.nom && m.chantier_id == data.chantier_destination_id)
            = some { id := st.next_materiel_id
                     nom := msrc.nom
                     description := msrc.description
                     unite := msrc.unite
                     quantite := data.quantite
                     seuil_alerte := msrc.seuil_alerte
                     prix_unitaire := msrc.prix_unitaire
                     categorie := msrc.categorie
                     chantier_id := data.chantier_destination_id
                     created_by := user.user_id } ∧
          st'.mouvements = st.mouvements ++
            [{ materiel_id := msrc.id
               type_mouvement := TypeMouvement.TRANSFERT_SORTANT
               quantite := data.quantite
               motif := data.motif.getD ""
               created_by := user.user_id },
             { materiel_id := st.next_materiel_id
               type_mouvement := TypeMouvement.TRANSFERT_ENTRANT
               quantite := data.quantite
               motif := data.motif.getD ""
               created_by := user.user_id }])) := by
  have hsp : (msrc.id == data.materiel_id && msrc.chantier_id == data.chantier_source_id) = true := by
    simpa using List.find?_some hfind
  have hsrc_id : msrc.id = data.materiel_id := by
    have := (Bool.and_eq_true _ _ |>.mp hsp).1
    simpa using this
  have hsrc_ch : msrc.chantier_id = data.chantier_source_id := by
    have := (Bool.and_eq_true _ _ |>.mp hsp).2
    simpa using this
  have hpres_src_f : ∀ m : Materiel,
      ((fun m : Materiel => m.id == data.materiel_id && m.chantier_id == data.chantier_source_id)
        (if m.id == data.materiel_id && m.chantier_id == data.chantier_source_id then
          { m with quantite := m.quantite - data.quantite } else m))
      = (m.id == data.materiel_id && m.chantier_id == data.chantier_source_id) := by
    intro m
    by_cases hm : (m.id == data.materiel_id && m.chantier_id == data.chantier_source_id) = true <;>
      simp [hm]
  have hpres_dst_f : ∀ m : Materiel,
      ((fun m : Materiel => m.nom == msrc.nom && m.chantier_id == data.chantier_destination_id)
        (if m.id == data.materiel_id && m.chantier_id == data.chantier_source_id then
          { m with quantite := m.quantite - data.quantite } else m))
      = (m.nom == msrc.nom && m.chantier_id == data.chantier_destination_id) := by
    intro m
    by_cases hm : (m.id == data.materiel_id && m.chantier_id == data.chantier_source_id) = true <;>
      simp [hm]
  have hsrcm : data.chantier_source_id ∈ st.chantiers := (contains_iff_mem _ _).mp hsrc
  have hdstm : data.chantier_destination_id ∈ st.chantiers := (contains_iff_mem _ _).mp hdst
  constructor
  · intro hlt
    simp only [transferer_materiel, hfind]
    rw [if_neg (not_not_intro hperm), if_neg (not_not_intro hsrc),
        if_neg (not_not_intro hdst), if_pos hlt]
  · intro hle
    have hnlt : ¬(msrc.quantite < data.quantite) := not_lt.mpr hle
    have hfsrc₁ : (st.materiels.map (fun m =>
        if m.id == data.materiel_id && m.chantier_id == data.chantier_source_id then
          { m with quantite := m.quantite - data.quantite } else m)).find?
        (fun m => m.id == data.materiel_id && m.chantier_id == data.chantier_source_id)
        = some { msrc with quantite := msrc.quantite - data.quantite } := by
      rw [find?_map_of_pred_eq _ _ _ hpres_src_f, hfind]
      simp only [Option.map_some']
      rw [if_pos hsp]
    constructor
    · intro mdst hdfind
      have hdp : (mdst.nom == msrc.nom && mdst.chantier_id == data.chantier_destination_id) = true := by
        simpa using List.find?_some hdfind
      have hdst_ch : mdst.chantier_id = data.chantier_destination_id := by
        have := (Bool.and_eq_true _ _ |>.mp hdp).2
        simpa using this
      have hdst_not_src : (mdst.id == data.materiel_id && mdst.chantier_id == data.chantier_source_id) = false := by
        have hch : (mdst.chantier_id == data.chantier_source_id) = false :=
          beq_eq_false_iff_ne.mpr (by rw [hdst_ch]; exact Ne.symm hne)
        simp [hch]
      have hfdst₁ : (st.materiels.map (fun m =>
          if m.id == data.materiel_id && m.chantier_id == data.chantier_source_id then
            { m with quantite := m.quantite - data.quantite } else m)).find?
          (fun m => m.nom == msrc.nom && m.chantier_id == data.chantier_destination_id)
          = some mdst := by
        rw [find?_map_of_pred_eq _ _ _ hpres_dst_f, hdfind]
        simp only [Option.map_some']
        rw [if_neg (ne_true_of_eq_false hdst_not_src)]
      have hpres_src_g : ∀ m : Materiel,
          ((fun m : Materiel => m.id == data.materiel_id && m.chantier_id == data.chantier_source_id)
            (if m.nom == msrc.nom && m.chantier_id == data.chantier_destination_id then
              { m with quantite := m.quantite + data.quantite } else m))
          = (m.id == data.materiel_id && m.chantier_id == data.chantier_source_id) := by
        intro m
        by_cases hm : (m.nom == msrc.nom && m.chantier_id == data.chantier_destination_id) = true <;>
          simp [hm]
      have hpres_dst_g : ∀ m : Materiel,
          ((fun m : Materiel => m.nom == msrc.nom && m.chantier_id == data.chantier_destination_id)
            (if m.nom == msrc.nom && m.chantier_id == data.chantier_destination_id then
              { m with quantite := m.quantite + data.quantite } else m))
          = (m.nom == msrc.nom && m.chantier_id == data.chantier_destination_id) := by
        intro m
        by_cases hm : (m.nom == msrc.nom && m.chantier_id == data.chantier_destination_id) = true <;>
          simp [hm]
      have hsrc_not_dst : ((msrc.nom == msrc.nom &&
          msrc.chantier_id == data.chantier_destination_id) : Bool) = false := by
        have hch : (msrc.chantier_id == data.chantier_destination_id) = false :=
          beq_eq_false_iff_ne.mpr (by rw [hsrc_ch]; exact hne)
        simp [hch]
      refine ⟨{ chantiers := st.chantiers
                materiels := (st.materiels.map (fun m =>
                  if m.id == data.materiel_id && m.chantier_id == data.chantier_source_id then
                    { m with quantite := m.quantite - data.quantite } else m)).map (fun m =>
                  if m.nom == msrc.nom && m.chantier_id == data.chantier_destination_id then
                    { m with quantite := m.quantite + data.quantite } else m)
                mouvements := st.mouvements ++
                  [{ materiel_id := msrc.id
                     type_mouvement := TypeMouvement.TRANSFERT_SORTANT
                     quantite := data.quantite
                     motif := data.motif.getD ""
                     created_by := user.user_id },
                   { materiel_id := mdst.id
                     type_mouvement := TypeMouvement.TRANSFERT_ENTRANT
                     quantite := data.quantite
                     motif := data.motif.getD ""
                     created_by := user.user_id }]
                next_materiel_id := st.next_materiel_id }, ?_, ?_, ?_, rfl⟩
      · simp only [transferer_materiel, hfind]
        rw [if_neg (not_not_intro hperm), if_neg (not_not_intro hsrc),
            if_neg (not_not_intro hdst), if_neg hnlt, hfdst₁]
      · show ((st.materiels.map _).map _).find? _ = _
        rw [find?_map_of_pred_eq _ _ _ hpres_src_g, hfsrc₁]
        simp only [Option.map_some']
        rw [if_neg (ne_true_of_eq_false hsrc_not_dst)]
      · show ((st.materiels.map _).map _).find? _ = _
        rw [find?_map_of_pred_eq _ _ _ hpres_dst_g, hfdst₁]
        simp only [Option.map_some']
        rw [if_pos hdp]
    · intro hdnone
      have hfdst₁ : (st.materiels.map (fun m =>
          if m.id == data.materiel_id && m.chantier_id == data.chantier_source_id then
            { m with quantite := m.quantite - data.quantite } else m)).find?
          (fun m => m.nom == msrc.nom && m.chantier_id == data.chantier_destination_id)
          = none := by
        rw [find?_map_of_pred_eq _ _ _ hpres_dst_f, hdnone]
        rfl
      refine ⟨{ chantiers := st.chantiers
                materiels := (st.materiels.map (fun m =>
                  if m.id == data.materiel_id && m.chantier_id == data.chantier_source_id then
                    { m with quantite := m.quantite - data.quantite } else m)) ++
                  [{ id := st.next_materiel_id
                     nom := msrc.nom
                     description := msrc.description
                     unite := msrc.unite
                     quantite := data.quantite
                     seuil_alerte := msrc.seuil_alerte
                     prix_unitaire := msrc.prix_unitaire
                     categorie := msrc.categorie
                     chantier_id := data.chantier_destination_id
                     created_by := user.user_id }]
                mouvements := st.mouvements ++
                  [{ materiel_id := msrc.id
                     type_mouvement := TypeMouvement.TRANSFERT_SORTANT
                     quantite := data.quantite
                     motif := data.motif.getD ""
                     created_by := user.user_id },
                   { materiel_id := st.next_materiel_id
                     type_mouvement := TypeMouvement.TRANSFERT_ENTRANT
                     quantite := data.quantite
                     motif := data.motif.getD ""
                     created_by := user.user_id }]
                next_materiel_id := st.next_materiel_id + 1 }, ?_, ?_, ?_, rfl⟩
      · simp only [transferer_materiel, hfind]
        rw [if_neg (not_not_intro hperm), if_neg (not_not_intro hsrc),
            if_neg (not_not_intro hdst), if_neg hnlt, hfdst₁]
      · exact find?_append_of_some _ _ _ _ hfsrc₁
      · rw [find?_append_of_none _ _ _ hfdst₁, List.find?_cons_of_pos _ (by simp)]

/-- C4 witness: with the sample stock (source balance 8 at site 1,
destination balance 3 at site 2), a transfer of 9 is rejected with no
mutation. -/
theorem transferer_materiel_spec_witness :
    transferer_materiel sampleStock ⟨10, 9, 1, 2, none⟩ sampleMagasinier
      = .error .validationError := by
  have h := transferer_materiel_spec sampleStock ⟨10, 9, 1, 2, none⟩
    sampleMagasinier sampleMatSrc (by decide) (by decide) (by decide)
    (by decide) (by decide)
  exact h.1 (by decide)

end Nexus
